import Mathlib

/-!
Verification of the minecraft-docker-manager-lib repository: a shallow
embedding in Lean 4 of the pure data/logic core (compose-file validation,
lifecycle status fold, telemetry text parsers, log tailing offsets, the
directory-watcher scan and diff), with theorems checking the natural
language specification against the code.

Python strings are modelled as Lean `String`; the Python string
operations used by the code (`str.split`, `str.split(sep)`,
`str.startswith`, `str.endswith`, `in`, `int(...)`, `str.isdigit`,
`str.strip`) are modelled by executable functions over `String.data`
below.  Fallible Python code (code that can raise) is modelled with
`Except String`; `None`-able fields with `Option`.

The file has two parts: first all definitions (the embedding), then all
theorems.
-/

namespace MCDM

/-! ## Python string primitives -/

/-- Splitting a character list at every character satisfying `p`,
keeping empty pieces (`split ":" "a::b" = ["a","","b"]`, `split "" = [""]`). -/
def splitAt? (p : Char → Bool) : List Char → List (List Char)
  | [] => [[]]
  | x :: xs =>
    if p x then [] :: splitAt? p xs
    else
      match splitAt? p xs with
      | [] => [[x]]
      | h :: t => (x :: h) :: t

/-- Python `s.split(sep)` for a one-character separator, on `String`. -/
def pySplitSep (c : Char) (s : String) : List String :=
  (splitAt? (· = c) s.data).map String.mk

/-- Python `str.split()` (no argument): split on runs of whitespace,
dropping empty pieces. -/
def pySplitWs (s : String) : List String :=
  ((splitAt? Char.isWhitespace s.data).filter (· ≠ [])).map String.mk

/-- Python `str.startswith(p)`. -/
def pyStartsWith (s p : String) : Bool :=
  p.data.isPrefixOf s.data

/-- Python `str.endswith(p)`. -/
def pyEndsWith (s p : String) : Bool :=
  p.data.isSuffixOf s.data

/-- Python `sub in s` (substring containment). -/
def pyContains (s sub : String) : Bool :=
  (s.data.tails).any fun t => sub.data.isPrefixOf t

/-- Python `str.isdigit()` restricted to ASCII: nonempty and all digits. -/
def pyIsDigit (s : String) : Bool :=
  !s.data.isEmpty && s.data.all Char.isDigit

/-- Value of a decimal digit list (most significant first). -/
def digitsToNat : List Char → Nat
  | [] => 0
  | d :: ds => digitsToNat ds + d.toNat % 48 * 10 ^ ds.length

/-- Python `int(s)` on a string: optional sign followed by one or more
ASCII digits (whitespace padding and underscores are not modelled);
`none` models the `ValueError` Python raises otherwise. -/
def pyIntOfStr (s : String) : Option Int :=
  match s.data with
  | '-' :: ds =>
    if ds ≠ [] ∧ ds.all Char.isDigit then some (-(digitsToNat ds : Int)) else none
  | '+' :: ds =>
    if ds ≠ [] ∧ ds.all Char.isDigit then some (digitsToNat ds : Int) else none
  | ds =>
    if ds ≠ [] ∧ ds.all Char.isDigit then some (digitsToNat ds : Int) else none

/-- Python `str.strip()`: drop leading and trailing whitespace. -/
def pyStrip (s : String) : String :=
  String.mk ((s.data.dropWhile Char.isWhitespace).reverse.dropWhile
    Char.isWhitespace).reverse

/-- Decidable equality of `Except` results, for evaluating concrete
outcomes in closed statements. -/
instance {ε α : Type} [DecidableEq ε] [DecidableEq α] :
    DecidableEq (Except ε α) := fun x y =>
  match x, y with
  | .ok a, .ok b =>
    if h : a = b then .isTrue (h ▸ rfl)
    else .isFalse fun he => h (Except.ok.inj he)
  | .error e, .error f =>
    if h : e = f then .isTrue (h ▸ rfl)
    else .isFalse fun he => h (Except.error.inj he)
  | .ok _, .error _ => .isFalse fun he => Except.noConfusion he
  | .error _, .ok _ => .isFalse fun he => Except.noConfusion he

/-! ## C1 — `MCInstance.get_status` (instance.py lines 330–357) -/

/-- `MCServerStatus` from instance.py. -/
inductive MCServerStatus
  | REMOVED
  | EXISTS
  | CREATED
  | RUNNING
  | STARTING
  | HEALTHY
deriving DecidableEq, Repr

/-- `MCInstance.get_status` as a pure function of the five polled
booleans (instance.py lines 330–357): the `await self.xxx()` calls are
the five boolean parameters; the `if`-chain is transcribed verbatim. -/
def get_status (ex created running starting healthy : Bool) : MCServerStatus :=
  if !ex then .REMOVED
  else if !created then .EXISTS
  else if !running then .CREATED
  else if starting then .STARTING
  else if !healthy then .RUNNING
  else .HEALTHY

/-! ## C2 — `MCInstance.get_logs_from_file` (instance.py lines 191–210)

The file's bytes are the explicit input; `f.seek(0, 2); f.tell()` is the
byte length; the offset arithmetic is transcribed verbatim; reading to
end-of-file is `List.drop`; the final `f.tell()` is the byte length. -/

/-- `LogType` from instance.py, with the log content as bytes. -/
structure LogType where
  content : List Nat
  pointer : Nat
deriving DecidableEq, Repr

/-- `MCInstance.get_logs_from_file` as a pure function of the log file's
bytes and the `start` argument (instance.py lines 191–210). -/
def get_logs_from_file (fileBytes : List Nat) (start : Int) : LogType :=
  let file_size : Int := fileBytes.length
  let start1 : Int :=
    if start < 0 then
      let s := file_size + start
      if s < 0 then 0 else s
    else if start > file_size then 0
    else start
  { content := fileBytes.drop start1.toNat, pointer := fileBytes.length }

/-! ## Compose-file data model (docker/compose_models.py, mc_compose_file.py)

Only the fields the verified code reads are modelled; opaque
pass-through blocks (top-level `networks`/`volumes`/`secrets`/`configs`,
and the many `ServiceSpec` fields never consulted) are omitted. -/

/-- A Python `int | str` union value (port `target`/`published` fields). -/
inductive PVal
  | int (n : Int)
  | str (s : String)
deriving DecidableEq, Repr

/-- Python `str(x)` on an optional `int | str` value; `str(None)` is
`"None"`. -/
def pyStrOpt : Option PVal → String
  | none => "None"
  | some (.int n) => toString n
  | some (.str s) => s

/-- Python `int(x)` on an `int | str` value; `.error` models the
`ValueError` raised for a string that is not an integer literal. -/
def pyIntOfPVal : PVal → Except String Int
  | .int n => .ok n
  | .str s =>
    match pyIntOfStr s with
    | some n => .ok n
    | none => .error ("invalid literal for int() with base 10: " ++ s)

/-- A Python `bool | str` union value (`stdin_open`, `tty`,
`read_only` fields). -/
inductive PyBoolStr
  | bool (b : Bool)
  | str (s : String)
deriving DecidableEq, Repr

/-- Python truthiness `bool(x)` on an optional `bool | str` value. -/
def pyBool : Option PyBoolStr → Bool
  | none => false
  | some (.bool b) => b
  | some (.str s) => !s.data.isEmpty

/-- A YAML scalar as it lands in a service `environment` mapping
(`str | float | bool | None` in the pydantic model). -/
inductive EnvScalar
  | str (s : String)
  | num (q : ℚ)
  | bool (b : Bool)
  | null
deriving DecidableEq, Repr

/-- First-match association-list lookup (Python `dict` access; dict keys
are unique, so first match is the match). -/
def assocLookup {α : Type} (k : String) : List (String × α) → Option α
  | [] => none
  | (k', v) :: rest => if k' = k then some v else assocLookup k rest

/-- Python `k in d` for an association-list-modelled dict. -/
def assocHasKey {α : Type} (k : String) (l : List (String × α)) : Bool :=
  (assocLookup k l).isSome

/-- `Ports` from docker/compose_models.py (fields the code reads). -/
structure Ports where
  name : Option String := none
  mode : Option String := none
  host_ip : Option String := none
  target : Option PVal := none
  published : Option PVal := none
  protocol : Option String := none
  app_protocol : Option String := none
deriving DecidableEq, Repr

/-- `Volumes` from docker/compose_models.py (fields the code reads). -/
structure Volumes where
  type : String
  source : Option String := none
  target : Option String := none
  read_only : Option PyBoolStr := none
deriving DecidableEq, Repr

/-- A service `environment` field after `ComposeFile` normalization:
either a resolved mapping or a still-unresolved sequence form. -/
inductive EnvField
  | dict (entries : List (String × EnvScalar))
  | seq (entries : List String)
deriving DecidableEq, Repr

/-- The slice of a compose `Service` that
`MCComposeFile._validate_and_convert_services` reads. -/
structure Service where
  container_name : Option String := none
  image : Option String := none
  environment : Option EnvField := none
  ports : Option (List Ports) := none
  volumes : Option (List Volumes) := none
  stdin_open : Option PyBoolStr := none
  tty : Option PyBoolStr := none
  restart : Option String := none
deriving DecidableEq, Repr

/-- The slice of `ComposeFile` that `MCComposeFile` reads: `services` is
an insertion-ordered mapping from service name to service. -/
structure ComposeFile where
  version : Option String := none
  name : Option String := none
  services : Option (List (String × Service)) := none
deriving DecidableEq, Repr

/-- `MCService` from mc_compose_file.py. -/
structure MCService where
  container_name : String
  image : String
  ports : List Ports
  volumes : List Volumes
  environment : List (String × EnvScalar)
  stdin_open : Bool
  tty : Bool
  restart : String
deriving DecidableEq, Repr

/-- `MCServices` from mc_compose_file.py. -/
structure MCServices where
  mc : MCService
deriving DecidableEq, Repr

/-- The `has_game_port` flag computed by the validation loop of
mc_compose_file.py (lines 102–108): some port's `str(target)` equals
`"25565"`. -/
def has_game_port (ports : List Ports) : Bool :=
  ports.any fun port => pyStrOpt port.target == "25565"

/-- The `has_rcon_port` flag computed by the validation loop of
mc_compose_file.py (lines 102–108): some port's `str(target)` equals
`"25575"` (the `elif` arm, reached only when it is not `"25565"`). -/
def has_rcon_port (ports : List Ports) : Bool :=
  ports.any fun port =>
    pyStrOpt port.target != "25565" && pyStrOpt port.target == "25575"

/-- Python `x or default` for an optional string (`None` and `""` are
falsy). -/
def pyOrStr (x : Option String) (default : String) : String :=
  match x with
  | none => default
  | some r => if r = "" then default else r

/-- `MCComposeFile._validate_and_convert_services`
(mc_compose_file.py lines 56–132), with each `raise ValueError(msg)`
modelled as `.error msg`. -/
def validate_and_convert_services (compose_obj : ComposeFile) :
    Except String MCServices :=
  match compose_obj.services with
  | none => .error "Could not find services in compose file"
  | some services =>
    match assocLookup "mc" services with
    | none => .error "Could not find service mc in compose file"
    | some mc_service =>
      match mc_service.container_name with
      | none => .error "Invalid container name in compose file"
      | some container_name =>
        if !pyStartsWith container_name "mc-" then
          .error "Container name must start with 'mc-'"
        else
          match mc_service.image with
          | none => .error "Service must use itzg/minecraft-server image"
          | some image =>
            if !pyContains image "itzg/minecraft-server" then
              .error "Service must use itzg/minecraft-server image"
            else
              match mc_service.environment with
              | some (.dict environment) =>
                if !assocHasKey "VERSION" environment then
                  .error "Could not find VERSION in environment"
                else
                  match mc_service.ports with
                  | none => .error "Could not find ports in compose file"
                  | some ports =>
                    if !has_game_port ports then
                      .error "Could not find game port (25565) in compose file"
                    else if !has_rcon_port ports then
                      .error "Could not find rcon port (25575) in compose file"
                    else
                      .ok
                        { mc :=
                          { container_name := container_name
                            image := image
                            ports := ports
                            volumes := mc_service.volumes.getD []
                            environment := environment
                            stdin_open := pyBool mc_service.stdin_open
                            tty := pyBool mc_service.tty
                            restart := pyOrStr mc_service.restart "unless-stopped" } }
              | _ => .error "Invalid environment in compose file"

/-- `MCComposeFile` from mc_compose_file.py. -/
structure MCComposeFile where
  version : Option String := none
  name : Option String := none
  services : MCServices
deriving DecidableEq, Repr

/-- `MCComposeFile.__init__`: validate-and-convert, then carry the
validated services (`.error` models the `ValueError` raised on invalid
input). -/
def MCComposeFile.ofCompose (compose_obj : ComposeFile) :
    Except String MCComposeFile :=
  (validate_and_convert_services compose_obj).map fun s =>
    { version := compose_obj.version, name := compose_obj.name, services := s }

/-- `MCComposeFile.mc_service`. -/
def MCComposeFile.mc_service (m : MCComposeFile) : MCService :=
  m.services.mc

/-- `MCComposeFile.get_server_name`: the container name minus its first
three characters (the `"mc-"` prefix). -/
def MCComposeFile.get_server_name (m : MCComposeFile) : String :=
  String.mk (m.mc_service.container_name.data.drop 3)

/-- `MCComposeFile.get_game_port` (mc_compose_file.py lines 143–150):
first port whose `str(target)` is `"25565"`; `int(published)` or the
25565 fallback; `.error` models the uncaught `ValueError` and the
fall-through `raise`. -/
def MCComposeFile.get_game_port (m : MCComposeFile) : Except String Int :=
  match m.mc_service.ports.find? fun port => pyStrOpt port.target == "25565" with
  | some port =>
    match port.published with
    | none => .ok 25565
    | some v => pyIntOfPVal v
  | none => .error "Could not find game port in compose file"

/-- `MCComposeFile.get_rcon_port` (mc_compose_file.py lines 152–159). -/
def MCComposeFile.get_rcon_port (m : MCComposeFile) : Except String Int :=
  match m.mc_service.ports.find? fun port => pyStrOpt port.target == "25575" with
  | some port =>
    match port.published with
    | none => .ok 25575
    | some v => pyIntOfPVal v
  | none => .error "Could not find rcon port in compose file"

/-- `MCComposeFile.get_game_version`: the environment's `VERSION` value
(present after validation; `none` would be Python's `KeyError`). -/
def MCComposeFile.get_game_version (m : MCComposeFile) : Option EnvScalar :=
  assocLookup "VERSION" m.mc_service.environment

/-! ## Telemetry parsers (docker/cgroup.py, docker/network.py) -/

/-- Python dict assignment `d[k] = v`: overwrite in place, else append. -/
def dictSet {α : Type} (k : String) (v : α) :
    List (String × α) → List (String × α)
  | [] => [(k, v)]
  | (k', v') :: rest =>
    if k' = k then (k', v) :: rest else (k', v') :: dictSet k v rest

/-- `MemoryStats` from docker/cgroup.py: the cgroup v2 `memory.stat`
counters, each defaulting to 0. -/
structure MemoryStats where
  anon : Int := 0
  file : Int := 0
  kernel : Int := 0
  kernel_stack : Int := 0
  pagetables : Int := 0
  sec_pagetables : Int := 0
  percpu : Int := 0
  sock : Int := 0
  vmalloc : Int := 0
  shmem : Int := 0
  zswap : Int := 0
  zswapped : Int := 0
  file_mapped : Int := 0
  file_dirty : Int := 0
  file_writeback : Int := 0
  swapcached : Int := 0
  anon_thp : Int := 0
  file_thp : Int := 0
  shmem_thp : Int := 0
  inactive_anon : Int := 0
  active_anon : Int := 0
  inactive_file : Int := 0
  active_file : Int := 0
  unevictable : Int := 0
  slab_reclaimable : Int := 0

deriving instance DecidableEq for MemoryStats

/-- Pydantic `MemoryStats(**stats)`: known keys are taken from the dict
(defaulting to 0), unknown keys are ignored. -/
def MemoryStats.ofStats (stats : List (String × Int)) : MemoryStats :=
  { anon := (assocLookup "anon" stats).getD 0
    file := (assocLookup "file" stats).getD 0
    kernel := (assocLookup "kernel" stats).getD 0
    kernel_stack := (assocLookup "kernel_stack" stats).getD 0
    pagetables := (assocLookup "pagetables" stats).getD 0
    sec_pagetables := (assocLookup "sec_pagetables" stats).getD 0
    percpu := (assocLookup "percpu" stats).getD 0
    sock := (assocLookup "sock" stats).getD 0
    vmalloc := (assocLookup "vmalloc" stats).getD 0
    shmem := (assocLookup "shmem" stats).getD 0
    zswap := (assocLookup "zswap" stats).getD 0
    zswapped := (assocLookup "zswapped" stats).getD 0
    file_mapped := (assocLookup "file_mapped" stats).getD 0
    file_dirty := (assocLookup "file_dirty" stats).getD 0
    file_writeback := (assocLookup "file_writeback" stats).getD 0
    swapcached := (assocLookup "swapcached" stats).getD 0
    anon_thp := (assocLookup "anon_thp" stats).getD 0
    file_thp := (assocLookup "file_thp" stats).getD 0
    shmem_thp := (assocLookup "shmem_thp" stats).getD 0
    inactive_anon := (assocLookup "inactive_anon" stats).getD 0
    active_anon := (assocLookup "active_anon" stats).getD 0
    inactive_file := (assocLookup "inactive_file" stats).getD 0
    active_file := (assocLookup "active_file" stats).getD 0
    unevictable := (assocLookup "unevictable" stats).getD 0
    slab_reclaimable := (assocLookup "slab_reclaimable" stats).getD 0 }

/-- The line loop of `MemoryStats.from_memory_stat_content`
(docker/cgroup.py lines 45–55): skip falsy lines and lines whose token
count is not 2, collect `key value` pairs into the stats dict,
propagating the `ValueError` of `int(value)`. -/
def MemoryStats.fromLines :
    List String → List (String × Int) → Except String (List (String × Int))
  | [], stats => .ok stats
  | line :: rest, stats =>
    if line ≠ "" then
      match pySplitWs line with
      | [key, value] =>
        match pyIntOfStr value with
        | some v => MemoryStats.fromLines rest (dictSet key v stats)
        | none => .error ("invalid literal for int() with base 10: " ++ value)
      | _ => MemoryStats.fromLines rest stats
    else MemoryStats.fromLines rest stats

/-- `MemoryStats.from_memory_stat_content` (docker/cgroup.py lines
45–55). -/
def MemoryStats.from_memory_stat_content (content : String) :
    Except String MemoryStats :=
  (MemoryStats.fromLines (pySplitSep '\n' (pyStrip content)) []).map
    MemoryStats.ofStats

/-- `MemoryStats.total_memory` (anon + file). -/
def MemoryStats.total_memory (m : MemoryStats) : Int :=
  m.anon + m.file

/-- `BlockIODevice` from docker/cgroup.py. -/
structure BlockIODevice where
  major : Int
  minor : Int
  rbytes : Int := 0
  wbytes : Int := 0
  rios : Int := 0
  wios : Int := 0
  dbytes : Int := 0
  dios : Int := 0

deriving instance DecidableEq for BlockIODevice

/-- Pydantic `BlockIODevice(**stats)` where the dict was seeded with
`major`/`minor` and filled from `key=value` tokens. -/
def BlockIODevice.ofStats (stats : List (String × Int)) : BlockIODevice :=
  { major := (assocLookup "major" stats).getD 0
    minor := (assocLookup "minor" stats).getD 0
    rbytes := (assocLookup "rbytes" stats).getD 0
    wbytes := (assocLookup "wbytes" stats).getD 0
    rios := (assocLookup "rios" stats).getD 0
    wios := (assocLookup "wios" stats).getD 0
    dbytes := (assocLookup "dbytes" stats).getD 0
    dios := (assocLookup "dios" stats).getD 0 }

/-- `BlockIODevice.total_bytes` (read + write + discard). -/
def BlockIODevice.total_bytes (d : BlockIODevice) : Int :=
  d.rbytes + d.wbytes + d.dbytes

/-- The `key=value` loop of `BlockIOStats.from_io_stat_content`
(docker/cgroup.py lines 117–120): tokens without `=` are skipped;
`part.split("=", 1)` keys the dict; `int(value)` may raise. -/
def ioDictOfParts :
    List String → List (String × Int) → Except String (List (String × Int))
  | [], stats => .ok stats
  | part :: rest, stats =>
    match pySplitSep '=' part with
    | [] => ioDictOfParts rest stats
    | [_] => ioDictOfParts rest stats
    | key :: valParts =>
      let value := String.intercalate "=" valParts
      match pyIntOfStr value with
      | some v => ioDictOfParts rest (dictSet key v stats)
      | none => .error ("invalid literal for int() with base 10: " ++ value)

/-- The line loop of `BlockIOStats.from_io_stat_content`
(docker/cgroup.py lines 104–124): falsy and whitespace-only lines are
skipped; each remaining line's first token must unpack as
`int:int` (a `ValueError` otherwise); the rest are `key=value`
tokens. -/
def BlockIOStats.fromLines : List String → Except String (List BlockIODevice)
  | [] => .ok []
  | line :: rest =>
    if line ≠ "" then
      match pySplitWs line with
      | [] => BlockIOStats.fromLines rest
      | device_id :: parts =>
        match pySplitSep ':' device_id with
        | [a, b] =>
          match pyIntOfStr a, pyIntOfStr b with
          | some major, some minor =>
            (ioDictOfParts parts [("major", major), ("minor", minor)]).bind
              fun stats =>
                (BlockIOStats.fromLines rest).map
                  fun devs => BlockIODevice.ofStats stats :: devs
          | _, _ =>
            .error ("invalid literal for int() with base 10: " ++ device_id)
        | _ =>
          .error "could not unpack major:minor from io.stat device token"
    else BlockIOStats.fromLines rest

/-- `BlockIOStats` from docker/cgroup.py. -/
structure BlockIOStats where
  devices : List BlockIODevice := []

deriving instance DecidableEq for BlockIOStats

/-- `BlockIOStats.from_io_stat_content` (docker/cgroup.py lines
104–124). -/
def BlockIOStats.from_io_stat_content (content : String) :
    Except String BlockIOStats :=
  (BlockIOStats.fromLines (pySplitSep '\n' (pyStrip content))).map
    fun devs => { devices := devs }

/-- `NetworkInterface` from docker/network.py: 16 counters, default 0. -/
structure NetworkInterface where
  name : String
  rx_bytes : Int := 0
  rx_packets : Int := 0
  rx_errs : Int := 0
  rx_drop : Int := 0
  rx_fifo : Int := 0
  rx_frame : Int := 0
  rx_compressed : Int := 0
  rx_multicast : Int := 0
  tx_bytes : Int := 0
  tx_packets : Int := 0
  tx_errs : Int := 0
  tx_drop : Int := 0
  tx_fifo : Int := 0
  tx_colls : Int := 0
  tx_carrier : Int := 0
  tx_compressed : Int := 0

deriving instance DecidableEq for NetworkInterface

/-- One iteration of the `/proc/<pid>/net/dev` line loop
(docker/network.py lines 72–110): strip; skip empty lines and lines
without a colon; split the interface name at the first colon; skip
lines with fewer than 16 stat fields; parse 16 integers, skipping the
line on any `ValueError` (the `try`/`except` in the source). -/
def parseNetLine (line : String) : Option NetworkInterface :=
  let line := pyStrip line
  if line = "" then none
  else
    match pySplitSep ':' line with
    | [] => none
    | [_] => none
    | name_part :: restParts =>
      let stats_part := String.intercalate ":" restParts
      let interface_name := pyStrip name_part
      let stats := pySplitWs stats_part
      if stats.length >= 16 then
        match (stats.take 16).mapM pyIntOfStr with
        | none => none
        | some vals =>
          some
            { name := interface_name
              rx_bytes := vals.getD 0 0, rx_packets := vals.getD 1 0
              rx_errs := vals.getD 2 0, rx_drop := vals.getD 3 0
              rx_fifo := vals.getD 4 0, rx_frame := vals.getD 5 0
              rx_compressed := vals.getD 6 0, rx_multicast := vals.getD 7 0
              tx_bytes := vals.getD 8 0, tx_packets := vals.getD 9 0
              tx_errs := vals.getD 10 0, tx_drop := vals.getD 11 0
              tx_fifo := vals.getD 12 0, tx_colls := vals.getD 13 0
              tx_carrier := vals.getD 14 0, tx_compressed := vals.getD 15 0 }
      else none

/-- `NetworkStats` from docker/network.py. -/
structure NetworkStats where
  pid : Int
  interfaces : List NetworkInterface := []

deriving instance DecidableEq for NetworkStats

/-- `NetworkStats.from_net_dev_content` (docker/network.py lines
62–112): the two header lines are dropped; every remaining line is
parsed by `parseNetLine`, malformed ones silently skipped — this
function is total (never raises). -/
def NetworkStats.from_net_dev_content (pid : Int) (content : String) :
    NetworkStats :=
  let lines := pySplitSep '\n' (pyStrip content)
  if lines.length < 3 then { pid := pid, interfaces := [] }
  else { pid := pid, interfaces := (lines.drop 2).filterMap parseNetLine }

/-! ## `read_cgroup_stats` (docker/cgroup.py lines 166–210)

The filesystem is the explicit input: `none` for a stat file models the
`FileNotFoundError` of the `open` call; `some content` its text. -/

/-- `CGroupStats` from docker/cgroup.py. -/
structure CGroupStats where
  container_id : String
  memory : Option MemoryStats := none
  block_io : Option BlockIOStats := none

deriving instance DecidableEq for CGroupStats

/-- `read_memory_stats` (docker/cgroup.py lines 166–177): a missing file
is a distinct not-found error, a parse failure is wrapped. -/
def read_memory_stats (container_id : String) (file : Option String) :
    Except String MemoryStats :=
  match file with
  | none => .error ("Memory stats not found for container " ++ container_id)
  | some content =>
    match MemoryStats.from_memory_stat_content content with
    | .ok m => .ok m
    | .error e =>
      .error ("Failed to read memory stats for container " ++ container_id ++
        ": " ++ e)

/-- `read_block_io_stats` (docker/cgroup.py lines 180–191). -/
def read_block_io_stats (container_id : String) (file : Option String) :
    Except String BlockIOStats :=
  match file with
  | none => .error ("Block I/O stats not found for container " ++ container_id)
  | some content =>
    match BlockIOStats.from_io_stat_content content with
    | .ok s => .ok s
    | .error e =>
      .error ("Failed to read block I/O stats for container " ++ container_id ++
        ": " ++ e)

/-- `read_cgroup_stats` (docker/cgroup.py lines 194–210): each sub-read
is attempted under its own `try`/`except`; a failure leaves the
corresponding field `None` and never aborts the function. -/
def read_cgroup_stats (container_id : String)
    (memFile ioFile : Option String) : CGroupStats :=
  { container_id := container_id
    memory := (read_memory_stats container_id memFile).toOption
    block_io := (read_block_io_stats container_id ioFile).toOption }

/-! ## C9 — usage-percentage accessors (instance.py lines 57–89)

Python float division is modelled by exact rational division; the
`ZeroDivisionError` it would raise on a zero divisor is the `.error`
of `pyDiv`. -/

/-- Python `a / b` on numbers: raises `ZeroDivisionError` on `b = 0`. -/
def pyDiv (a b : ℚ) : Except String ℚ :=
  if b = 0 then .error "division by zero" else .ok (a / b)

/-- `DiskSpaceInfo` from instance.py. -/
structure DiskSpaceInfo where
  used_bytes : Int
  total_bytes : Int
  available_bytes : Int

deriving instance DecidableEq for DiskSpaceInfo

/-- `DiskSpaceInfo.usage_percentage` (instance.py lines 84–89): guard
the zero total, else `used / total * 100`. -/
def DiskSpaceInfo.usage_percentage (d : DiskSpaceInfo) : Except String ℚ :=
  if d.total_bytes = 0 then .ok 0
  else (pyDiv (d.used_bytes : ℚ) (d.total_bytes : ℚ)).map (· * 100)

/-- `MCServerRunningInfo` from instance.py. -/
structure MCServerRunningInfo where
  cpu_percentage : ℚ
  memory_usage_bytes : Int
  disk_read_bytes : Int
  disk_write_bytes : Int
  network_receive_bytes : Int
  network_send_bytes : Int
  disk_usage_bytes : Int
  disk_total_bytes : Int
  disk_available_bytes : Int

deriving instance DecidableEq for MCServerRunningInfo

/-- `MCServerRunningInfo.disk_usage_percentage` (instance.py lines
69–74). -/
def MCServerRunningInfo.disk_usage_percentage (r : MCServerRunningInfo) :
    Except String ℚ :=
  if r.disk_total_bytes = 0 then .ok 0
  else (pyDiv (r.disk_usage_bytes : ℚ) (r.disk_total_bytes : ℚ)).map (· * 100)

/-! ## C7 — directory-watcher diff
(minecraft_docker_dir_watcher/__main__.py lines 98–122)

`monitor` polls, and when the scanned table differs from the stored one
it builds a notification list: one pass over the new table emitting
`new`/`updated` entries, then one pass over the stored table emitting
`removed` entries.  Python dicts become association lists with pairwise
distinct keys, iterated in insertion order. -/

/-- `NotificationItemT` from minecraft_docker_dir_watcher/__main__.py. -/
inductive NotifItem
  | new (name : String) (port : Int)
  | updated (name : String) (port : Int)
  | removed (name : String) (port : Int)
deriving DecidableEq, Repr

/-- The notification list one `monitor` poll cycle builds
(minecraft_docker_dir_watcher/__main__.py lines 108–117). -/
def monitorNotification (stored newServers : List (String × Int)) :
    List NotifItem :=
  (newServers.filterMap fun np =>
    match assocLookup np.1 stored with
    | none => some (.new np.1 np.2)
    | some q => if q ≠ np.2 then some (.updated np.1 np.2) else none) ++
  (stored.filterMap fun np =>
    match assocLookup np.1 newServers with
    | none => some (.removed np.1 np.2)
    | some _ => none)

/-! ## C10 — directory-watcher per-file scan
(minecraft_docker_dir_watcher/files.py lines 20–64)

`get_name_port_from_compose_file` works on raw YAML values, so a field
can hold a non-string/non-list; `WatchVal`/`PortsVal` model the
`isinstance` checks, and a non-string ports entry makes
`m.endswith(":25565")` raise `AttributeError` (the `.error` below). -/

/-- A YAML value tested with `isinstance(x, str)`. -/
inductive WatchVal
  | str (s : String)
  | nonStr
deriving DecidableEq, Repr

/-- A YAML value tested with `isinstance(x, list)`; list entries are
themselves string-or-not. -/
inductive PortsVal
  | list (entries : List WatchVal)
  | nonList
deriving DecidableEq, Repr

/-- The two fields of a scanned service configuration that
`get_name_port_from_compose_file` reads. -/
structure WatchService where
  container_name : Option WatchVal := none
  ports : Option PortsVal := none
deriving DecidableEq, Repr

/-- The list comprehension
`[m.split(":")[0] for m in mappings if m.endswith(":25565")]`
(files.py lines 52–56): evaluating `m.endswith` on a non-string entry
raises `AttributeError`. -/
def collectPorts : List WatchVal → Except String (List String)
  | [] => .ok []
  | .nonStr :: _ => .error "AttributeError: object has no attribute endswith"
  | .str m :: rest =>
    (collectPorts rest).map fun l =>
      if pyEndsWith m ":25565" then
        (match pySplitSep ':' m with
         | h :: _ => h
         | [] => "") :: l
      else l

/-- The `for service_config in services.values()` loop of
`get_name_port_from_compose_file` (files.py lines 31–64): every
`continue` recurses on the remaining services; the `return` stops. -/
def watchLoop : List WatchService → Except String (Option (String × Int))
  | [] => .ok none
  | svc :: rest =>
    match svc.container_name with
    | none => watchLoop rest
    | some .nonStr => watchLoop rest
    | some (.str container_name) =>
      if !pyStartsWith container_name "mc-" then watchLoop rest
      else
        let server_name := String.mk (container_name.data.drop 3)
        match svc.ports with
        | none => watchLoop rest
        | some .nonList => watchLoop rest
        | some (.list mappings) =>
          (collectPorts mappings).bind fun ports =>
            match ports with
            | [] => watchLoop rest
            | port_str :: _ =>
              if !pyIsDigit port_str then watchLoop rest
              else .ok (some (server_name, (pyIntOfStr port_str).getD 0))

/-- `get_name_port_from_compose_file` (files.py lines 20–64) as a
function of the parsed compose mapping: `none` services models a
document without a `services` key (an early `None` return). -/
def get_name_port_from_compose_file
    (services : Option (List (String × WatchService))) :
    Except String (Option (String × Int)) :=
  match services with
  | none => .ok none
  | some svcs => watchLoop (svcs.map Prod.snd)

/-! ## C3 — port shorthand parser

docker/compose_file.py is not present under src/ (only its tests in
tests/test_compose_file.py and its callers are), so the parser is
modelled from the spec (§4.1) and checked against the recorded test
vectors. -/

/-- Modelled from the spec: the input type of `convert_str_port_to_obj`
from the missing docker/compose_file.py — a raw string, or a bare
numeric (int/float) value. -/
inductive PortInput
  | str (s : String)
  | num (q : ℚ)

/-- Modelled from the spec: Python `int(x)` on a float, truncation
toward zero, for the missing parser's numeric-input coercion. -/
def pyIntOfFloat (q : ℚ) : Int :=
  q.num.tdiv q.den

/-- Modelled from the spec: a positional port component of the missing
parser's grammar — `"<n>"` or `"<lo>-<hi>"` with numeric parts. -/
def isPortSpec (s : String) : Bool :=
  match pySplitSep '-' s with
  | [a] => pyIsDigit a
  | [a, b] => pyIsDigit a && pyIsDigit b
  | _ => false

/-- Modelled from the spec: the colon-positional grammar of the missing
`convert_str_port_to_obj` after protocol-suffix removal — 1 part is
`target`, 2 parts are `published:target`, 3 parts are
`host_ip:published:target` (range strings kept as ranges); anything
else raises the invalid-port error. -/
def parsePortBase (b : String) (protocol : Option String) :
    Except String Ports :=
  match pySplitSep ':' b with
  | [t] =>
    if isPortSpec t then
      .ok { target := some (.str t), protocol := protocol }
    else .error "Invalid port format"
  | [p, t] =>
    if isPortSpec p && isPortSpec t then
      .ok { published := some (.str p), target := some (.str t),
            protocol := protocol }
    else .error "Invalid port format"
  | [h, p, t] =>
    if isPortSpec p && isPortSpec t then
      .ok { host_ip := some h, published := some (.str p),
            target := some (.str t), protocol := protocol }
    else .error "Invalid port format"
  | _ => .error "Invalid port format"

/-- Modelled from the spec: the string branch of the missing
`convert_str_port_to_obj` — split on `/` first to detect a protocol
suffix, then apply the positional grammar. -/
def parsePortStr (s : String) : Except String Ports :=
  match pySplitSep '/' s with
  | [b] => parsePortBase b none
  | [b, proto] => parsePortBase b (some proto)
  | _ => .error "Invalid port format"

/-- Modelled from the spec: `convert_str_port_to_obj` of the missing
docker/compose_file.py — a bare numeric input is first coerced to its
integer string form. -/
def convert_str_port_to_obj : PortInput → Except String Ports
  | .num q => parsePortStr (toString (pyIntOfFloat q))
  | .str s => parsePortStr s

/-! ### Concrete compose documents used by closed witnesses below -/

/-- A well-formed `mc` service (the §8 example document of the spec). -/
def goodMcService : Service :=
  { container_name := some "mc-foo"
    image := some "itzg/minecraft-server:java21"
    environment := some (.dict [("VERSION", .str "1.20.4")])
    ports := some
      [{ target := some (.int 25565), published := some (.int 25565) },
       { target := some (.int 25575) }] }

/-- A compose document holding `goodMcService` under the `mc` key. -/
def goodCompose : ComposeFile :=
  { services := some [("mc", goodMcService)] }

/-- The `MCComposeFile` that validating `goodCompose` produces. -/
def goodComposeValidated : MCComposeFile :=
  { services :=
    { mc :=
      { container_name := "mc-foo"
        image := "itzg/minecraft-server:java21"
        ports :=
          [{ target := some (.int 25565), published := some (.int 25565) },
           { target := some (.int 25575) }]
        volumes := []
        environment := [("VERSION", .str "1.20.4")]
        stdin_open := false
        tty := false
        restart := "unless-stopped" } } }

/-- An `mc` service whose game-port entry publishes a host port range:
validation accepts it (its target is 25565) but `int("8000-9000")`
raises. -/
def rangeMcService : Service :=
  { container_name := some "mc-foo"
    image := some "itzg/minecraft-server:java21"
    environment := some (.dict [("VERSION", .str "1.20.4")])
    ports := some
      [{ target := some (.str "25565"), published := some (.str "8000-9000") },
       { target := some (.int 25575) }] }

/-- A compose document holding `rangeMcService` under the `mc` key. -/
def rangePortCompose : ComposeFile :=
  { services := some [("mc", rangeMcService)] }

end MCDM

/-! # Theorems -/

/-- `splitAt?` never returns an empty list of pieces. -/
theorem MCDM.splitAt?_ne_nil (p : Char → Bool) (l : List Char) :
    MCDM.splitAt? p l ≠ [] := by
  induction l with
  | nil => simp [MCDM.splitAt?]
  | cons x xs ih =>
    simp only [MCDM.splitAt?]
    split
    · simp
    · split
      · simp
      · simp

/-- C1: `MCInstance.get_status` folds the five polled booleans into one
status by the fixed priority order: not exists ⇒ REMOVED regardless of
the rest; exists but not created ⇒ EXISTS; created but not running ⇒
CREATED; running and starting ⇒ STARTING regardless of healthy; running,
not starting, not healthy ⇒ RUNNING; all of exists, created, running,
healthy with starting false ⇒ HEALTHY. -/
theorem MCDM.get_status_priority_fold (ex c r s h : Bool) :
    (ex = false → MCDM.get_status ex c r s h = .REMOVED) ∧
    (ex = true → c = false → MCDM.get_status ex c r s h = .EXISTS) ∧
    (ex = true → c = true → r = false → MCDM.get_status ex c r s h = .CREATED) ∧
    (ex = true → c = true → r = true → s = true →
      MCDM.get_status ex c r s h = .STARTING) ∧
    (ex = true → c = true → r = true → s = false → h = false →
      MCDM.get_status ex c r s h = .RUNNING) ∧
    (ex = true → c = true → r = true → s = false → h = true →
      MCDM.get_status ex c r s h = .HEALTHY) := by
  cases ex <;> cases c <;> cases r <;> cases s <;> cases h <;>
    simp [MCDM.get_status]

/-- Witness for C1: concrete instantiations discharging the hypotheses of
each clause of the priority fold. -/
theorem MCDM.get_status_priority_fold_witness :
    MCDM.get_status false true true true true = .REMOVED ∧
    MCDM.get_status true true true true false = .STARTING ∧
    MCDM.get_status true true true false false = .RUNNING ∧
    MCDM.get_status true true true false true = .HEALTHY :=
  ⟨(MCDM.get_status_priority_fold false true true true true).1 rfl,
   (MCDM.get_status_priority_fold true true true true false).2.2.2.1 rfl rfl rfl rfl,
   (MCDM.get_status_priority_fold true true true false false).2.2.2.2.1
     rfl rfl rfl rfl rfl,
   (MCDM.get_status_priority_fold true true true false true).2.2.2.2.2
     rfl rfl rfl rfl rfl⟩

/-- With pairwise-distinct keys (a Python dict), association lookup finds
exactly the stored value of a present key. -/
theorem MCDM.assocLookup_eq_some_of_mem {α : Type} (k : String) (v : α)
    (env : List (String × α)) (hnd : (env.map Prod.fst).Nodup)
    (hmem : (k, v) ∈ env) : MCDM.assocLookup k env = some v := by
  induction env with
  | nil => simp at hmem
  | cons kv rest ih =>
    obtain ⟨k', v'⟩ := kv
    simp only [List.map_cons, List.nodup_cons] at hnd
    simp only [MCDM.assocLookup]
    by_cases hk : k' = k
    · subst hk
      rcases List.mem_cons.mp hmem with heq | hrest
      · obtain ⟨-, rfl⟩ := Prod.mk.injEq .. ▸ heq
        simp
      · exact absurd (List.mem_map_of_mem Prod.fst hrest) hnd.1
    · rw [if_neg hk]
      rcases List.mem_cons.mp hmem with heq | hrest
      · exact absurd (congrArg Prod.fst heq).symm hk
      · exact ih hnd.2 hrest

/-- A string of the form `"mc-" ++ N` starts with `"mc-"`. -/
theorem MCDM.pyStartsWith_mc (N : String) :
    MCDM.pyStartsWith ("mc-" ++ N) "mc-" = true := by
  simp [MCDM.pyStartsWith, String.data_append,
    show "mc-".data = ['m', 'c', '-'] from rfl, List.isPrefixOf]

/-- Dropping three characters from `"mc-" ++ N` leaves `N`. -/
theorem MCDM.server_name_drop (N : String) :
    String.mk (("mc-" ++ N).data.drop 3) = N := by
  rw [String.data_append, show "mc-".data = ['m', 'c', '-'] from rfl]
  rfl

/-- C2: `get_logs_from_file` resolves the effective read offset as
`max 0 (file_size + start)` when `start < 0`, `0` when
`start > file_size`, and `start` otherwise; it returns the content from
that offset to end-of-file and a pointer equal to the file size.  In
particular on a 100-byte file `start = -10` returns the last 10 bytes
with pointer 100 and `start = 150` returns all 100 bytes with
pointer 100. -/
theorem MCDM.get_logs_from_file_offsets (fileBytes : List Nat) (start : Int) :
    (start < 0 →
      (MCDM.get_logs_from_file fileBytes start).content =
        fileBytes.drop (max 0 ((fileBytes.length : Int) + start)).toNat) ∧
    (start > (fileBytes.length : Int) →
      (MCDM.get_logs_from_file fileBytes start).content = fileBytes) ∧
    (0 ≤ start → start ≤ (fileBytes.length : Int) →
      (MCDM.get_logs_from_file fileBytes start).content =
        fileBytes.drop start.toNat) ∧
    (MCDM.get_logs_from_file fileBytes start).pointer = fileBytes.length ∧
    (fileBytes.length = 100 → start = -10 →
      (MCDM.get_logs_from_file fileBytes start).content = fileBytes.drop 90 ∧
      (MCDM.get_logs_from_file fileBytes start).pointer = 100) ∧
    (fileBytes.length = 100 → start = 150 →
      (MCDM.get_logs_from_file fileBytes start).content = fileBytes ∧
      (MCDM.get_logs_from_file fileBytes start).pointer = 100) := by
  refine ⟨fun hneg => ?_, fun hbig => ?_, fun h0 hle => ?_, ?_, ?_, ?_⟩
  · simp only [MCDM.get_logs_from_file, if_pos hneg]
    congr 1
    omega
  · have hneg : ¬ start < 0 := by omega
    simp only [MCDM.get_logs_from_file, if_neg hneg, if_pos hbig]
    simp
  · have hneg : ¬ start < 0 := by omega
    have hbig : ¬ start > (fileBytes.length : Int) := by omega
    simp only [MCDM.get_logs_from_file, if_neg hneg, if_neg hbig]
  · simp [MCDM.get_logs_from_file]
  · rintro hlen rfl
    constructor
    · simp only [MCDM.get_logs_from_file, hlen]
      norm_num
      congr 1
    · simp [MCDM.get_logs_from_file, hlen]
  · rintro hlen rfl
    constructor
    · simp only [MCDM.get_logs_from_file, hlen]
      norm_num
    · simp [MCDM.get_logs_from_file, hlen]

/-- Witness for C2: the offset clauses applied to a concrete 100-byte
file at `start = -10` and `start = 150`. -/
theorem MCDM.get_logs_from_file_offsets_witness :
    (MCDM.get_logs_from_file (List.replicate 100 7) (-10)).content =
      (List.replicate 100 7).drop 90 ∧
    (MCDM.get_logs_from_file (List.replicate 100 7) 150).content =
      List.replicate 100 7 ∧
    (MCDM.get_logs_from_file (List.replicate 100 7) 150).pointer = 100 :=
  ⟨((MCDM.get_logs_from_file_offsets (List.replicate 100 7) (-10)).2.2.2.2.1
      (by decide) rfl).1,
   ((MCDM.get_logs_from_file_offsets (List.replicate 100 7) 150).2.2.2.2.2
      (by decide) rfl).1,
   ((MCDM.get_logs_from_file_offsets (List.replicate 100 7) 150).2.2.2.2.2
      (by decide) rfl).2⟩

/-- C4: for a compose document whose `mc` service has container name
`"mc-" ++ N`, an image containing `"itzg/minecraft-server"`, an
environment mapping containing `VERSION`, and ports whose targets
include 25565 and 25575, `MCComposeFile` construction succeeds,
`get_server_name` returns `N` and `get_game_version` returns the
environment's `VERSION` value; and a non-`"mc-"` container name, a
missing `VERSION` key, or a missing required port each independently
fails construction with its distinct validation error. -/
theorem MCDM.mc_compose_validation (c : MCDM.ComposeFile)
    (svcs : List (String × MCDM.Service)) (mc : MCDM.Service)
    (cname img : String) (env : List (String × MCDM.EnvScalar))
    (ports : List MCDM.Ports)
    (hsvc : c.services = some svcs)
    (hmc : MCDM.assocLookup "mc" svcs = some mc)
    (hcn : mc.container_name = some cname)
    (himg : mc.image = some img)
    (himg2 : MCDM.pyContains img "itzg/minecraft-server" = true)
    (henv : mc.environment = some (.dict env))
    (hports : mc.ports = some ports) :
    (∀ N : String, cname = "mc-" ++ N →
      ∀ v : MCDM.EnvScalar, ("VERSION", v) ∈ env → (env.map Prod.fst).Nodup →
      (∃ p ∈ ports, MCDM.pyStrOpt p.target = "25565") →
      (∃ p ∈ ports, MCDM.pyStrOpt p.target = "25575") →
        (MCDM.MCComposeFile.ofCompose c).isOk = true ∧
        (MCDM.MCComposeFile.ofCompose c).map MCDM.MCComposeFile.get_server_name =
          .ok N ∧
        (MCDM.MCComposeFile.ofCompose c).map MCDM.MCComposeFile.get_game_version =
          .ok (some v)) ∧
    (MCDM.pyStartsWith cname "mc-" = false →
      MCDM.MCComposeFile.ofCompose c =
        .error "Container name must start with 'mc-'") ∧
    (MCDM.pyStartsWith cname "mc-" = true →
      MCDM.assocHasKey "VERSION" env = false →
      MCDM.MCComposeFile.ofCompose c =
        .error "Could not find VERSION in environment") ∧
    (MCDM.pyStartsWith cname "mc-" = true →
      MCDM.assocHasKey "VERSION" env = true →
      (∀ p ∈ ports, MCDM.pyStrOpt p.target ≠ "25565") →
      MCDM.MCComposeFile.ofCompose c =
        .error "Could not find game port (25565) in compose file") ∧
    (MCDM.pyStartsWith cname "mc-" = true →
      MCDM.assocHasKey "VERSION" env = true →
      (∃ p ∈ ports, MCDM.pyStrOpt p.target = "25565") →
      (∀ p ∈ ports, MCDM.pyStrOpt p.target ≠ "25575") →
      MCDM.MCComposeFile.ofCompose c =
        .error "Could not find rcon port (25575) in compose file") := by
  refine ⟨?_, ?_, ?_, ?_, ?_⟩
  · rintro N rfl v hv hnd hg hr
    have hlk := MCDM.assocLookup_eq_some_of_mem "VERSION" v env hnd hv
    have hkey : MCDM.assocHasKey "VERSION" env = true := by
      simp [MCDM.assocHasKey, hlk]
    have hgp : MCDM.has_game_port ports = true := by
      rcases hg with ⟨p, hp, he⟩
      simp only [MCDM.has_game_port]
      exact List.any_eq_true.mpr ⟨p, hp, by simp [he]⟩
    have hrp : MCDM.has_rcon_port ports = true := by
      rcases hr with ⟨p, hp, he⟩
      simp only [MCDM.has_rcon_port]
      exact List.any_eq_true.mpr ⟨p, hp, by simp [he]⟩
    simp only [MCDM.MCComposeFile.ofCompose, MCDM.validate_and_convert_services,
      hsvc, hmc, hcn, himg, henv, hports, MCDM.pyStartsWith_mc, himg2, hkey,
      hgp, hrp, Bool.not_true, Bool.false_eq_true, if_false, ite_false]
    refine ⟨rfl, ?_, ?_⟩
    · simp [Except.map, MCDM.MCComposeFile.get_server_name,
        MCDM.MCComposeFile.mc_service, MCDM.server_name_drop]
    · simp [Except.map, MCDM.MCComposeFile.get_game_version,
        MCDM.MCComposeFile.mc_service, hlk]
  · intro hpre
    simp [MCDM.MCComposeFile.ofCompose, MCDM.validate_and_convert_services,
      hsvc, hmc, hcn, himg, henv, hports, hpre, Except.map]
  · intro hpre hkey
    simp [MCDM.MCComposeFile.ofCompose, MCDM.validate_and_convert_services,
      hsvc, hmc, hcn, himg, henv, hports, hpre, himg2, hkey, Except.map]
  · intro hpre hkey hnog
    have hgp : MCDM.has_game_port ports = false := by
      simp only [MCDM.has_game_port, List.any_eq_false]
      intro p hp
      simp [hnog p hp]
    simp [MCDM.MCComposeFile.ofCompose, MCDM.validate_and_convert_services,
      hsvc, hmc, hcn, himg, henv, hports, hpre, himg2, hkey, hgp, Except.map]
  · intro hpre hkey hg hnor
    have hgp : MCDM.has_game_port ports = true := by
      rcases hg with ⟨p, hp, he⟩
      simp only [MCDM.has_game_port]
      exact List.any_eq_true.mpr ⟨p, hp, by simp [he]⟩
    have hrp : MCDM.has_rcon_port ports = false := by
      simp only [MCDM.has_rcon_port, List.any_eq_false]
      intro p hp
      simp [hnor p hp]
    simp [MCDM.MCComposeFile.ofCompose, MCDM.validate_and_convert_services,
      hsvc, hmc, hcn, himg, henv, hports, hpre, himg2, hkey, hgp, hrp,
      Except.map]

/-- Witness for C4: the success clause of `mc_compose_validation` at the
spec's §8 example document. -/
theorem MCDM.mc_compose_validation_witness :
    (MCDM.MCComposeFile.ofCompose MCDM.goodCompose).isOk = true ∧
    (MCDM.MCComposeFile.ofCompose MCDM.goodCompose).map
      MCDM.MCComposeFile.get_server_name = .ok "foo" ∧
    (MCDM.MCComposeFile.ofCompose MCDM.goodCompose).map
      MCDM.MCComposeFile.get_game_version = .ok (some (.str "1.20.4")) :=
  (MCDM.mc_compose_validation MCDM.goodCompose [("mc", MCDM.goodMcService)]
    MCDM.goodMcService "mc-foo" "itzg/minecraft-server:java21"
    [("VERSION", .str "1.20.4")]
    [{ target := some (.int 25565), published := some (.int 25565) },
     { target := some (.int 25575) }]
    rfl (by decide) rfl rfl (by decide) rfl rfl).1 "foo" rfl (.str "1.20.4")
    (by decide) (by decide) (by decide) (by decide)

/-- A successful validation pins down both required target ports: some
port of the produced service targets 25565 and some port targets
25575 (helper for the accessor-safety theorem). -/
theorem MCDM.validate_ok_any (c : MCDM.ComposeFile) (s : MCDM.MCServices)
    (h : MCDM.validate_and_convert_services c = .ok s) :
    MCDM.has_game_port s.mc.ports = true ∧
    MCDM.has_rcon_port s.mc.ports = true := by
  unfold MCDM.validate_and_convert_services at h
  repeat' split at h
  all_goals first
    | exact Except.noConfusion h
    | (injection h with h
       subst h
       constructor <;> simp_all)

/-- C5 (amended): on every successfully constructed `MCComposeFile`, the
port entry targeting 25565 (resp. 25575) exists, and `get_game_port`
(resp. `get_rcon_port`) returns its `published` value as an integer —
or the target itself when `published` is absent — without raising,
whenever that `published` value is absent, an integer, or an
integer-formatted string.  (A non-integer `published` string such as a
range raises `ValueError`; see the counterexample.) -/
theorem MCDM.mc_ports_accessors (c : MCDM.ComposeFile) (m : MCDM.MCComposeFile)
    (hok : MCDM.MCComposeFile.ofCompose c = .ok m) :
    ((m.mc_service.ports.find? fun p =>
        MCDM.pyStrOpt p.target == "25565").isSome = true) ∧
    ((m.mc_service.ports.find? fun p =>
        MCDM.pyStrOpt p.target == "25575").isSome = true) ∧
    (∀ p, (m.mc_service.ports.find? fun q =>
        MCDM.pyStrOpt q.target == "25565") = some p →
      (p.published = none → m.get_game_port = .ok 25565) ∧
      (∀ n, p.published = some (.int n) → m.get_game_port = .ok n) ∧
      (∀ ps n, p.published = some (.str ps) → MCDM.pyIntOfStr ps = some n →
        m.get_game_port = .ok n)) ∧
    (∀ p, (m.mc_service.ports.find? fun q =>
        MCDM.pyStrOpt q.target == "25575") = some p →
      (p.published = none → m.get_rcon_port = .ok 25575) ∧
      (∀ n, p.published = some (.int n) → m.get_rcon_port = .ok n) ∧
      (∀ ps n, p.published = some (.str ps) → MCDM.pyIntOfStr ps = some n →
        m.get_rcon_port = .ok n)) := by
  unfold MCDM.MCComposeFile.ofCompose at hok
  cases hv : MCDM.validate_and_convert_services c with
  | error e => rw [hv] at hok; exact Except.noConfusion hok
  | ok s =>
    rw [hv] at hok
    simp only [Except.map] at hok
    injection hok with hok
    subst hok
    obtain ⟨hg, hr⟩ := MCDM.validate_ok_any c s hv
    have hmc : (MCDM.MCComposeFile.mc_service
        { version := c.version, name := c.name, services := s }) = s.mc := rfl
    refine ⟨?_, ?_, ?_, ?_⟩
    · rw [hmc]
      simp only [MCDM.has_game_port, List.any_eq_true] at hg
      exact List.find?_isSome.mpr hg
    · rw [hmc]
      simp only [MCDM.has_rcon_port, List.any_eq_true] at hr
      rcases hr with ⟨p, hp, hpp⟩
      simp only [Bool.and_eq_true] at hpp
      exact List.find?_isSome.mpr ⟨p, hp, hpp.2⟩
    · intro p hfind
      rw [hmc] at hfind
      refine ⟨?_, ?_, ?_⟩
      · intro hpub
        simp [MCDM.MCComposeFile.get_game_port, MCDM.MCComposeFile.mc_service,
          hfind, hpub]
      · intro n hpub
        simp [MCDM.MCComposeFile.get_game_port, MCDM.MCComposeFile.mc_service,
          hfind, hpub, MCDM.pyIntOfPVal]
      · intro ps n hpub hint
        simp [MCDM.MCComposeFile.get_game_port, MCDM.MCComposeFile.mc_service,
          hfind, hpub, MCDM.pyIntOfPVal, hint]
    · intro p hfind
      rw [hmc] at hfind
      refine ⟨?_, ?_, ?_⟩
      · intro hpub
        simp [MCDM.MCComposeFile.get_rcon_port, MCDM.MCComposeFile.mc_service,
          hfind, hpub]
      · intro n hpub
        simp [MCDM.MCComposeFile.get_rcon_port, MCDM.MCComposeFile.mc_service,
          hfind, hpub, MCDM.pyIntOfPVal]
      · intro ps n hpub hint
        simp [MCDM.MCComposeFile.get_rcon_port, MCDM.MCComposeFile.mc_service,
          hfind, hpub, MCDM.pyIntOfPVal, hint]

/-- Counterexample to C5 as stated: a compose document whose game-port
entry has the published range `"8000-9000"` passes construction, yet
`get_game_port` raises (`int("8000-9000")` is a `ValueError`), so the
accessors are not raise-free on every successfully constructed
`MCComposeFile`. -/
theorem MCDM.mc_ports_accessor_raises :
    (MCDM.MCComposeFile.ofCompose MCDM.rangePortCompose).isOk = true ∧
    (MCDM.MCComposeFile.ofCompose MCDM.rangePortCompose).map
      (fun m => m.get_game_port.isOk) = .ok false :=
  ⟨rfl, rfl⟩

/-- Witness for C5: the accessor clauses applied to the concrete
validated example document. -/
theorem MCDM.mc_ports_accessors_witness :
    MCDM.goodComposeValidated.get_game_port = .ok 25565 ∧
    MCDM.goodComposeValidated.get_rcon_port = .ok 25575 :=
  ⟨((MCDM.mc_ports_accessors MCDM.goodCompose MCDM.goodComposeValidated
      rfl).2.2.1
      { target := some (.int 25565), published := some (.int 25565) }
      (by decide)).2.1 25565 rfl,
   ((MCDM.mc_ports_accessors MCDM.goodCompose MCDM.goodComposeValidated
      rfl).2.2.2
      { target := some (.int 25575) }
      (by decide)).1 rfl⟩

/-- Counterexample to C6 as stated: the memory parser raises on the
two-token line `"anon abc"` whose value is not an integer, so it is not
true that no content string causes a parse to raise. -/
theorem MCDM.memory_parser_raises :
    MCDM.MemoryStats.from_memory_stat_content "anon abc" =
      .error "invalid literal for int() with base 10: abc" := rfl

/-- C6 (amended): the three text parsers skip lines of the wrong
*shape* — the memory parser skips lines whose token count is not 2, the
io parser skips blank lines and tokens without `=`, and the net/dev
parser (which is total and never raises) skips any line it cannot fully
parse — and well-formed lines elsewhere in the same content are still
parsed; but the memory and io parsers *raise* `ValueError` when a
well-shaped line has a non-integer numeric field. -/
theorem MCDM.telemetry_parsers_skip_malformed :
    (∀ line rest stats, (MCDM.pySplitWs line).length ≠ 2 →
      MCDM.MemoryStats.fromLines (line :: rest) stats =
        MCDM.MemoryStats.fromLines rest stats) ∧
    (∀ line rest, MCDM.pySplitWs line = [] →
      MCDM.BlockIOStats.fromLines (line :: rest) =
        MCDM.BlockIOStats.fromLines rest) ∧
    (∀ part rest stats, (MCDM.pySplitSep '=' part).length = 1 →
      MCDM.ioDictOfParts (part :: rest) stats =
        MCDM.ioDictOfParts rest stats) ∧
    (∀ line rest, MCDM.parseNetLine line = none →
      (line :: rest).filterMap MCDM.parseNetLine =
        rest.filterMap MCDM.parseNetLine) ∧
    ((MCDM.MemoryStats.from_memory_stat_content
        "anon 100\nmalformed line junk\nfile 50").map
      MCDM.MemoryStats.total_memory = .ok 150) ∧
    (MCDM.BlockIOStats.from_io_stat_content "8:0 rbytes=10 junk wbytes=20" =
      .ok { devices := [{ major := 8, minor := 0, rbytes := 10, wbytes := 20 }] }) ∧
    (MCDM.NetworkStats.from_net_dev_content 7
        "h1\nh2\neth0: 1 2 3 4 5 6 7 8 9 10 11 12 13 14 15 16\nbadline" =
      { pid := 7
        interfaces :=
          [{ name := "eth0", rx_bytes := 1, rx_packets := 2, rx_errs := 3
             rx_drop := 4, rx_fifo := 5, rx_frame := 6, rx_compressed := 7
             rx_multicast := 8, tx_bytes := 9, tx_packets := 10, tx_errs := 11
             tx_drop := 12, tx_fifo := 13, tx_colls := 14, tx_carrier := 15
             tx_compressed := 16 }] }) ∧
    ((MCDM.MemoryStats.from_memory_stat_content "anon 100\nfile oops").isOk =
      false) ∧
    ((MCDM.BlockIOStats.from_io_stat_content "8:0 rbytes=oops").isOk = false) := by
  refine ⟨?_, ?_, ?_, ?_, rfl, rfl, rfl, rfl, rfl⟩
  · intro line rest stats hlen
    by_cases hline : line = ""
    · simp [MCDM.MemoryStats.fromLines, hline]
    · rw [MCDM.MemoryStats.fromLines.eq_def]
      simp only [hline, ne_eq, not_false_iff, if_true]
      split
      · rename_i key value heq
        rw [heq] at hlen
        simp at hlen
      · rfl
  · intro line rest hsp
    by_cases hline : line = ""
    · simp [MCDM.BlockIOStats.fromLines, hline]
    · simp [MCDM.BlockIOStats.fromLines, hline, hsp]
  · intro part rest stats hlen
    match hsp : MCDM.pySplitSep '=' part with
    | [] => rw [hsp] at hlen; simp at hlen
    | [x] => simp [MCDM.ioDictOfParts, hsp]
    | x :: y :: t => rw [hsp] at hlen; simp at hlen
  · intro line rest hnone
    simp [List.filterMap_cons, hnone]

/-- Witness for C6: the skip clauses applied to concrete malformed
lines. -/
theorem MCDM.telemetry_parsers_skip_malformed_witness :
    MCDM.MemoryStats.fromLines ["bad line junk", "anon 5"] [] =
      MCDM.MemoryStats.fromLines ["anon 5"] [] ∧
    ["garbage"].filterMap MCDM.parseNetLine =
      ([] : List String).filterMap MCDM.parseNetLine :=
  ⟨MCDM.telemetry_parsers_skip_malformed.1 "bad line junk" ["anon 5"] []
     (by decide),
   MCDM.telemetry_parsers_skip_malformed.2.2.2.1 "garbage" [] (by decide)⟩

/-- C8: `read_cgroup_stats` always returns a `CGroupStats` record whose
memory and block-I/O fields are the two sub-reads' results made
optional, each independent of the other sub-read's outcome; concretely,
a missing memory file with a readable io file still yields the parsed
block-I/O statistics. -/
theorem MCDM.read_cgroup_stats_independent (cid : String)
    (memFile ioFile : Option String) :
    (MCDM.read_cgroup_stats cid memFile ioFile).container_id = cid ∧
    (MCDM.read_cgroup_stats cid memFile ioFile).memory =
      (MCDM.read_memory_stats cid memFile).toOption ∧
    (MCDM.read_cgroup_stats cid memFile ioFile).block_io =
      (MCDM.read_block_io_stats cid ioFile).toOption ∧
    (∀ memFile2, (MCDM.read_cgroup_stats cid memFile2 ioFile).block_io =
      (MCDM.read_cgroup_stats cid memFile ioFile).block_io) ∧
    (∀ ioFile2, (MCDM.read_cgroup_stats cid memFile ioFile2).memory =
      (MCDM.read_cgroup_stats cid memFile ioFile).memory) ∧
    (MCDM.read_cgroup_stats "c" none (some "8:0 rbytes=10 wbytes=20") =
      { container_id := "c", memory := none,
        block_io := some
          { devices :=
            [{ major := 8, minor := 0, rbytes := 10, wbytes := 20 }] } }) :=
  ⟨rfl, rfl, rfl, fun _ => rfl, fun _ => rfl, rfl⟩

/-- C9: both usage-percentage accessors are total on all field values:
they return `used / total * 100` when the total is nonzero and exactly 0
when the total is zero, never reaching the division-by-zero error. -/
theorem MCDM.usage_percentage_total (d : MCDM.DiskSpaceInfo)
    (r : MCDM.MCServerRunningInfo) :
    (d.usage_percentage.isOk = true) ∧
    (d.total_bytes = 0 → d.usage_percentage = .ok 0) ∧
    (d.total_bytes ≠ 0 → d.usage_percentage =
      .ok ((d.used_bytes : ℚ) / (d.total_bytes : ℚ) * 100)) ∧
    (r.disk_usage_percentage.isOk = true) ∧
    (r.disk_total_bytes = 0 → r.disk_usage_percentage = .ok 0) ∧
    (r.disk_total_bytes ≠ 0 → r.disk_usage_percentage =
      .ok ((r.disk_usage_bytes : ℚ) / (r.disk_total_bytes : ℚ) * 100)) := by
  have hd : ∀ _ : d.total_bytes ≠ 0, d.usage_percentage =
      .ok ((d.used_bytes : ℚ) / (d.total_bytes : ℚ) * 100) := by
    intro h
    have hq : (d.total_bytes : ℚ) ≠ 0 := Int.cast_ne_zero.mpr h
    simp [MCDM.DiskSpaceInfo.usage_percentage, MCDM.pyDiv, h, hq, Except.map]
  have hr : ∀ _ : r.disk_total_bytes ≠ 0, r.disk_usage_percentage =
      .ok ((r.disk_usage_bytes : ℚ) / (r.disk_total_bytes : ℚ) * 100) := by
    intro h
    have hq : (r.disk_total_bytes : ℚ) ≠ 0 := Int.cast_ne_zero.mpr h
    simp [MCDM.MCServerRunningInfo.disk_usage_percentage, MCDM.pyDiv, h, hq,
      Except.map]
  refine ⟨?_, ?_, hd, ?_, ?_, hr⟩
  · by_cases h : d.total_bytes = 0
    · simp [MCDM.DiskSpaceInfo.usage_percentage, h, Except.isOk, Except.toBool]
    · rw [hd h]
      rfl
  · intro h
    simp [MCDM.DiskSpaceInfo.usage_percentage, h]
  · by_cases h : r.disk_total_bytes = 0
    · simp [MCDM.MCServerRunningInfo.disk_usage_percentage, h, Except.isOk,
        Except.toBool]
    · rw [hr h]
      rfl
  · intro h
    simp [MCDM.MCServerRunningInfo.disk_usage_percentage, h]

/-- Witness for C9: a 200-byte disk with 50 bytes used reads 25 percent;
a zero-total disk reads 0 without raising. -/
theorem MCDM.usage_percentage_total_witness :
    (MCDM.DiskSpaceInfo.usage_percentage ⟨50, 200, 150⟩ = .ok 25) ∧
    (MCDM.DiskSpaceInfo.usage_percentage ⟨50, 0, 0⟩ = .ok 0) := by
  constructor
  · rw [(MCDM.usage_percentage_total ⟨50, 200, 150⟩
      ⟨0, 0, 0, 0, 0, 0, 0, 1, 0⟩).2.2.1 (by decide)]
    norm_num
  · exact (MCDM.usage_percentage_total ⟨50, 0, 0⟩
      ⟨0, 0, 0, 0, 0, 0, 0, 1, 0⟩).2.1 rfl

/-- With pairwise-distinct keys and a predicate only satisfiable at key
`n`, a `countP` over an association list is decided by the lookup at
`n` (helper for the watcher-diff theorem). -/
theorem MCDM.countP_assoc_unique (n : String) (Q : String × Int → Bool)
    (hQ : ∀ np, Q np = true → np.1 = n) :
    ∀ l : List (String × Int), (l.map Prod.fst).Nodup →
      l.countP Q =
        (match MCDM.assocLookup n l with
         | some v => if Q (n, v) then 1 else 0
         | none => 0) := by
  intro l
  induction l with
  | nil => intro _; simp [MCDM.assocLookup]
  | cons kv rest ih =>
    intro hnd
    obtain ⟨k0, v0⟩ := kv
    simp only [List.map_cons, List.nodup_cons] at hnd
    rw [List.countP_cons]
    by_cases hk : k0 = n
    · subst hk
      have hrest : rest.countP Q = 0 := by
        rw [List.countP_eq_zero]
        intro np hmem habs
        exact hnd.1 (hQ np habs ▸ List.mem_map_of_mem Prod.fst hmem)
      rw [hrest]
      simp [MCDM.assocLookup]
    · have hhead : Q (k0, v0) = false := by
        by_contra habs
        simp only [Bool.not_eq_false] at habs
        exact hk (hQ (k0, v0) habs)
      rw [hhead]
      simp only [MCDM.assocLookup, if_neg hk]
      rw [ih hnd.2]
      simp

/-- C7: one poll cycle of the directory watcher emits exactly one
notification entry per difference between the stored and newly scanned
tables: one `new` entry per name only in the new scan, one `updated`
entry per name in both with a changed port, one `removed` entry per
name only in the stored table; in particular the two §8 example diffs
hold literally. -/
theorem MCDM.monitor_diff_exact (stored newS : List (String × Int))
    (hnds : (stored.map Prod.fst).Nodup) (hndn : (newS.map Prod.fst).Nodup) :
    (∀ n p, (MCDM.monitorNotification stored newS).countP
        (· == MCDM.NotifItem.new n p) =
      if MCDM.assocLookup n newS = some p ∧ MCDM.assocLookup n stored = none
      then 1 else 0) ∧
    (∀ n p, (MCDM.monitorNotification stored newS).countP
        (· == MCDM.NotifItem.updated n p) =
      if MCDM.assocLookup n newS = some p ∧ MCDM.assocLookup n stored ≠ none ∧
         MCDM.assocLookup n stored ≠ some p
      then 1 else 0) ∧
    (∀ n p, (MCDM.monitorNotification stored newS).countP
        (· == MCDM.NotifItem.removed n p) =
      if MCDM.assocLookup n stored = some p ∧ MCDM.assocLookup n newS = none
      then 1 else 0) ∧
    (MCDM.monitorNotification [("a", 1000)] [("a", 1000), ("b", 2000)] =
      [.new "b" 2000]) ∧
    (MCDM.monitorNotification [("a", 1000)] [] = [.removed "a" 1000]) := by
  refine ⟨?_, ?_, ?_, rfl, rfl⟩
  · intro n p
    rw [MCDM.monitorNotification, List.countP_append, List.countP_filterMap,
      List.countP_filterMap]
    have h2 : (stored.countP fun np =>
        (((match MCDM.assocLookup np.1 newS with
           | none => some (MCDM.NotifItem.removed np.1 np.2)
           | some _ => none).map
          (· == MCDM.NotifItem.new n p)).getD false)) = 0 := by
      rw [List.countP_eq_zero]
      intro np _
      cases hl : MCDM.assocLookup np.1 newS <;> simp [hl]
    rw [h2, Nat.add_zero]
    rw [MCDM.countP_assoc_unique n _ ?uniq newS hndn]
    case uniq =>
      intro np habs
      cases hl : MCDM.assocLookup np.1 stored with
      | none =>
        rw [hl] at habs
        simp at habs
        exact habs.1
      | some q =>
        rw [hl] at habs
        by_cases hq : q = np.2
        · simp [hq] at habs
        · simp [hq] at habs
    cases hn : MCDM.assocLookup n newS with
    | none => simp
    | some v =>
      cases hs : MCDM.assocLookup n stored with
      | none =>
        simp only [hs, Option.map, Option.getD]
        by_cases hv : v = p
        · subst hv
          simp
        · simp [hv, Option.some.injEq]
      | some q =>
        by_cases hq : q = v
        · simp [hs, hq]
        · simp [hs, hq]
  · intro n p
    rw [MCDM.monitorNotification, List.countP_append, List.countP_filterMap,
      List.countP_filterMap]
    have h2 : (stored.countP fun np =>
        (((match MCDM.assocLookup np.1 newS with
           | none => some (MCDM.NotifItem.removed np.1 np.2)
           | some _ => none).map
          (· == MCDM.NotifItem.updated n p)).getD false)) = 0 := by
      rw [List.countP_eq_zero]
      intro np _
      cases hl : MCDM.assocLookup np.1 newS <;> simp [hl]
    rw [h2, Nat.add_zero]
    rw [MCDM.countP_assoc_unique n _ ?uniq2 newS hndn]
    case uniq2 =>
      intro np habs
      cases hl : MCDM.assocLookup np.1 stored with
      | none =>
        rw [hl] at habs
        simp at habs
      | some q =>
        rw [hl] at habs
        by_cases hq : q = np.2
        · simp [hq] at habs
        · simp [hq] at habs
          exact habs.1
    cases hn : MCDM.assocLookup n newS with
    | none => simp
    | some v =>
      cases hs : MCDM.assocLookup n stored with
      | none => simp [hs]
      | some q =>
        by_cases hq : q = v
        · subst hq
          simp [hs]
        · simp only [hs, ne_eq, hq, not_false_iff, if_true, Option.map,
            Option.getD]
          by_cases hv : v = p
          · subst hv
            have hqv : ¬(some q = some v) := by simp [hq]
            simp [hqv]
          · simp [hv, Option.some.injEq]
  · intro n p
    rw [MCDM.monitorNotification, List.countP_append, List.countP_filterMap,
      List.countP_filterMap]
    have h1 : (newS.countP fun np =>
        (((match MCDM.assocLookup np.1 stored with
           | none => some (MCDM.NotifItem.new np.1 np.2)
           | some q => if q ≠ np.2 then some (MCDM.NotifItem.updated np.1 np.2)
                       else none).map
          (· == MCDM.NotifItem.removed n p)).getD false)) = 0 := by
      rw [List.countP_eq_zero]
      intro np _
      cases hl : MCDM.assocLookup np.1 stored with
      | none => simp [hl]
      | some q =>
        by_cases hq : q = np.2 <;> simp [hl, hq]
    rw [h1, Nat.zero_add]
    rw [MCDM.countP_assoc_unique n _ ?uniq3 stored hnds]
    case uniq3 =>
      intro np habs
      cases hl : MCDM.assocLookup np.1 newS with
      | none =>
        rw [hl] at habs
        simp at habs
        exact habs.1
      | some q =>
        rw [hl] at habs
        simp at habs
    cases hs : MCDM.assocLookup n stored with
    | none => simp
    | some v =>
      cases hn : MCDM.assocLookup n newS with
      | none =>
        simp only [hn, Option.map, Option.getD]
        by_cases hv : v = p
        · subst hv
          simp
        · simp [hv, Option.some.injEq]
      | some q => simp [hn]

/-- Witness for C7: the exact-count clauses applied to the concrete §8
example diff. -/
theorem MCDM.monitor_diff_exact_witness :
    (MCDM.monitorNotification [("a", 1000)] [("a", 1000), ("b", 2000)]).countP
      (· == MCDM.NotifItem.new "b" 2000) = 1 ∧
    (MCDM.monitorNotification [("a", 1000)] []).countP
      (· == MCDM.NotifItem.removed "a" 1000) = 1 := by
  constructor
  · rw [(MCDM.monitor_diff_exact [("a", 1000)] [("a", 1000), ("b", 2000)]
      (by decide) (by decide)).1 "b" 2000]
    decide
  · rw [(MCDM.monitor_diff_exact [("a", 1000)] [] (by decide) (by decide)).2.2.1
      "a" 1000]
    decide

/-- Counterexample to C10 as stated: a service whose ports list contains
a qualifying entry `"25565:25565"` *after* the non-numeric
`"127.0.0.1:25565:25565"` is skipped entirely — the scan takes only the
first `":25565"`-suffixed entry, finds `"127.0.0.1"` non-numeric, and
moves to the next service — returning `None` where the claim demands
`{foo: 25565}`. -/
theorem MCDM.watch_scan_skips_service_with_later_match :
    MCDM.get_name_port_from_compose_file
      (some [("mc",
        { container_name := some (.str "mc-foo")
          ports := some (.list [.str "127.0.0.1:25565:25565",
                                .str "25565:25565"]) })]) = .ok none ∧
    MCDM.get_name_port_from_compose_file
      (some [("mc",
        { container_name := some (.str "mc-foo")
          ports := some (.list [.str "127.0.0.1:25565:25565",
                                .str "25565:25565"]) })]) ≠
      .ok (some ("foo", 25565)) := by
  constructor
  · decide
  · decide

/-- C10 (amended): the per-file scan returns `None` when `services` is
missing; a service is skipped when its container name is missing,
non-string, or not `"mc-"`-prefixed, when its ports field is missing or
not a list, when no ports entry ends in `":25565"`, or when the *first*
`":25565"`-suffixed entry's first colon-component is not all digits
(even if a later entry qualifies); the first service passing all checks
returns the singleton `{name-minus-prefix: int(first component)}`
without consulting later services; on all-string ports lists the
comprehension keeps exactly the `":25565"`-suffixed entries' first
components, and a non-string ports entry raises `AttributeError`. -/
theorem MCDM.watch_scan_first_match :
    (MCDM.get_name_port_from_compose_file none = .ok none) ∧
    (∀ svc rest, (svc.container_name = none ∨
        svc.container_name = some .nonStr) →
      MCDM.watchLoop (svc :: rest) = MCDM.watchLoop rest) ∧
    (∀ svc rest c, svc.container_name = some (.str c) →
      MCDM.pyStartsWith c "mc-" = false →
      MCDM.watchLoop (svc :: rest) = MCDM.watchLoop rest) ∧
    (∀ svc rest c, svc.container_name = some (.str c) →
      MCDM.pyStartsWith c "mc-" = true →
      (svc.ports = none ∨ svc.ports = some .nonList) →
      MCDM.watchLoop (svc :: rest) = MCDM.watchLoop rest) ∧
    (∀ svc rest c ms, svc.container_name = some (.str c) →
      MCDM.pyStartsWith c "mc-" = true →
      svc.ports = some (.list ms) →
      MCDM.collectPorts ms = .ok [] →
      MCDM.watchLoop (svc :: rest) = MCDM.watchLoop rest) ∧
    (∀ svc rest c ms h t, svc.container_name = some (.str c) →
      MCDM.pyStartsWith c "mc-" = true →
      svc.ports = some (.list ms) →
      MCDM.collectPorts ms = .ok (h :: t) →
      MCDM.pyIsDigit h = false →
      MCDM.watchLoop (svc :: rest) = MCDM.watchLoop rest) ∧
    (∀ svc rest c ms h t n, svc.container_name = some (.str c) →
      MCDM.pyStartsWith c "mc-" = true →
      svc.ports = some (.list ms) →
      MCDM.collectPorts ms = .ok (h :: t) →
      MCDM.pyIsDigit h = true →
      MCDM.pyIntOfStr h = some n →
      MCDM.watchLoop (svc :: rest) =
        .ok (some (String.mk (c.data.drop 3), n))) ∧
    (∀ ss : List String, MCDM.collectPorts (ss.map .str) =
      .ok ((ss.filter fun s => MCDM.pyEndsWith s ":25565").map
        fun s => (MCDM.pySplitSep ':' s).headD "")) ∧
    (∀ entries, MCDM.WatchVal.nonStr ∈ entries →
      (MCDM.collectPorts entries).isOk = false) := by
  refine ⟨rfl, ?_, ?_, ?_, ?_, ?_, ?_, ?_, ?_⟩
  · rintro svc rest (hcn | hcn) <;> simp [MCDM.watchLoop, hcn]
  · intro svc rest c hcn hpre
    simp [MCDM.watchLoop, hcn, hpre]
  · rintro svc rest c hcn hpre (hp | hp) <;>
      simp [MCDM.watchLoop, hcn, hpre, hp]
  · intro svc rest c ms hcn hpre hp hcol
    simp [MCDM.watchLoop, hcn, hpre, hp, hcol, Except.bind]
  · intro svc rest c ms h t hcn hpre hp hcol hdig
    simp [MCDM.watchLoop, hcn, hpre, hp, hcol, hdig, Except.bind]
  · intro svc rest c ms h t n hcn hpre hp hcol hdig hint
    simp [MCDM.watchLoop, hcn, hpre, hp, hcol, hdig, hint, Except.bind]
  · intro ss
    induction ss with
    | nil => rfl
    | cons s rest ih =>
      by_cases he : MCDM.pyEndsWith s ":25565" = true
      · simp [MCDM.collectPorts, ih, he, List.filter_cons]
        cases hsp : MCDM.pySplitSep ':' s with
        | nil => exact absurd hsp (by simp [MCDM.pySplitSep, MCDM.splitAt?_ne_nil])
        | cons a tl => simp [Except.map]
      · simp [MCDM.collectPorts, ih, he, List.filter_cons, Except.map]
  · intro entries hmem
    induction entries with
    | nil => simp at hmem
    | cons e rest ih =>
      cases e with
      | nonStr => simp [MCDM.collectPorts, Except.isOk, Except.toBool]
      | str s =>
        rcases List.mem_cons.mp hmem with heq | hrest
        · exact absurd heq (by simp)
        · have := ih hrest
          simp only [MCDM.collectPorts]
          cases hc : MCDM.collectPorts rest with
          | ok l => rw [hc] at this; simp [Except.isOk, Except.toBool] at this
          | error e => simp [Except.map, Except.isOk, Except.toBool]

/-- Witness for C10: the first-match clause applied to a concrete
qualifying service. -/
theorem MCDM.watch_scan_first_match_witness :
    MCDM.watchLoop
      [{ container_name := some (.str "mc-foo")
         ports := some (.list [.str "25565:25565"]) }] =
      .ok (some ("foo", 25565)) := by
  rw [MCDM.watch_scan_first_match.2.2.2.2.2.2.1
    { container_name := some (.str "mc-foo")
      ports := some (.list [.str "25565:25565"]) } [] "mc-foo"
    [.str "25565:25565"] "25565" [] 25565 rfl (by decide) rfl (by decide)
    (by decide) (by decide)]
  decide

/-- C3: the port-shorthand parser splits on `/` first to detect a
protocol suffix, then maps 1 colon-separated part to `{target}`, 2 to
`{published, target}`, and 3 to `{host_ip, published, target}` (ranges
kept as range strings); a bare numeric input is coerced to its integer
string form (3000.5 parses as `{target: "3000"}`); every input matching
none of these shapes — a non-port-shaped component or four or more
colon parts — raises the invalid-port-format error. -/
theorem MCDM.convert_str_port_shapes :
    (∀ s b, MCDM.pySplitSep '/' s = [b] →
      MCDM.convert_str_port_to_obj (.str s) = MCDM.parsePortBase b none) ∧
    (∀ s b pr, MCDM.pySplitSep '/' s = [b, pr] →
      MCDM.convert_str_port_to_obj (.str s) =
        MCDM.parsePortBase b (some pr)) ∧
    (∀ q, MCDM.convert_str_port_to_obj (.num q) =
      MCDM.convert_str_port_to_obj (.str (toString (MCDM.pyIntOfFloat q)))) ∧
    (∀ b pr t, MCDM.pySplitSep ':' b = [t] → MCDM.isPortSpec t = true →
      MCDM.parsePortBase b pr =
        .ok { target := some (.str t), protocol := pr }) ∧
    (∀ b pr p t, MCDM.pySplitSep ':' b = [p, t] →
      MCDM.isPortSpec p = true → MCDM.isPortSpec t = true →
      MCDM.parsePortBase b pr =
        .ok { published := some (.str p), target := some (.str t),
              protocol := pr }) ∧
    (∀ b pr h p t, MCDM.pySplitSep ':' b = [h, p, t] →
      MCDM.isPortSpec p = true → MCDM.isPortSpec t = true →
      MCDM.parsePortBase b pr =
        .ok { host_ip := some h, published := some (.str p),
              target := some (.str t), protocol := pr }) ∧
    (∀ b pr t, MCDM.pySplitSep ':' b = [t] → MCDM.isPortSpec t = false →
      MCDM.parsePortBase b pr = .error "Invalid port format") ∧
    (∀ b pr p t, MCDM.pySplitSep ':' b = [p, t] →
      (MCDM.isPortSpec p && MCDM.isPortSpec t) = false →
      MCDM.parsePortBase b pr = .error "Invalid port format") ∧
    (∀ b pr h p t, MCDM.pySplitSep ':' b = [h, p, t] →
      (MCDM.isPortSpec p && MCDM.isPortSpec t) = false →
      MCDM.parsePortBase b pr = .error "Invalid port format") ∧
    (∀ b pr parts, MCDM.pySplitSep ':' b = parts → 4 ≤ parts.length →
      MCDM.parsePortBase b pr = .error "Invalid port format") ∧
    (MCDM.convert_str_port_to_obj (.str "6060:6060/udp") =
      .ok { published := some (.str "6060"), target := some (.str "6060"),
            protocol := some "udp" }) ∧
    (MCDM.convert_str_port_to_obj (.str "9090-9091:8080-8081") =
      .ok { published := some (.str "9090-9091"),
            target := some (.str "8080-8081") }) ∧
    (MCDM.convert_str_port_to_obj (.str "127.0.0.1:8001:8001") =
      .ok { host_ip := some "127.0.0.1", published := some (.str "8001"),
            target := some (.str "8001") }) ∧
    (MCDM.convert_str_port_to_obj (.num (mkRat 6001 2)) =
      .ok { target := some (.str "3000") }) ∧
    (MCDM.convert_str_port_to_obj (.str "invalid-port-format") =
      .error "Invalid port format") := by
  refine ⟨?_, ?_, fun q => rfl, ?_, ?_, ?_, ?_, ?_, ?_, ?_,
    by decide, by decide, by decide, by decide, by decide⟩
  · intro s b hsp
    simp [MCDM.convert_str_port_to_obj, MCDM.parsePortStr, hsp]
  · intro s b pr hsp
    simp [MCDM.convert_str_port_to_obj, MCDM.parsePortStr, hsp]
  · intro b pr t hsp ht
    simp [MCDM.parsePortBase, hsp, ht]
  · intro b pr p t hsp hp ht
    simp [MCDM.parsePortBase, hsp, hp, ht]
  · intro b pr h p t hsp hp ht
    simp [MCDM.parsePortBase, hsp, hp, ht]
  · intro b pr t hsp ht
    simp [MCDM.parsePortBase, hsp, ht]
  · intro b pr p t hsp hpt
    simp [MCDM.parsePortBase, hsp, hpt]
  · intro b pr h p t hsp hpt
    simp [MCDM.parsePortBase, hsp, hpt]
  · intro b pr parts hsp hlen
    match parts, hlen with
    | a :: c :: d :: e :: rest, _ =>
      simp [MCDM.parsePortBase, hsp]

/-- Witness for C3: the two-part grammar clause and the too-many-parts
failure clause at concrete inputs. -/
theorem MCDM.convert_str_port_shapes_witness :
    MCDM.parsePortBase "8000:8000" none =
      .ok { published := some (.str "8000"), target := some (.str "8000") } ∧
    MCDM.parsePortBase "a:b:c:d" none = .error "Invalid port format" :=
  ⟨MCDM.convert_str_port_shapes.2.2.2.2.1 "8000:8000" none "8000" "8000"
     (by decide) (by decide) (by decide),
   MCDM.convert_str_port_shapes.2.2.2.2.2.2.2.2.2.1 "a:b:c:d" none
     ["a", "b", "c", "d"] (by decide) (by decide)⟩
